import Mathlib

/-!
Verification of the connect-fluent-client request-execution engine and its
error model.

The error model (`ClientError`) is embedded from `src/cnct/client/exceptions.py`.
The request executor (`ConnectClient` in `cnct/client/fluent.py`) is not part of
the provided sources; its behaviour is modelled from the specification
(§4.1 RequestExecutor, §4.2 verb conveniences) and each such definition is
marked `Modelled from the spec:` in its doc comment.
-/

namespace Cnct

/-! ### ErrorModel: embedding of `cnct/client/exceptions.py` (`ClientError`) -/

/-- `ClientError.__init__`: message, status_code, error_code, errors, all
optional (`None` by default).  `status_code` is a Python integer, `errors` a
list of strings. -/
structure ClientError where
  message : Option String
  status_code : Option Int
  error_code : Option String
  errors : Option (List String)

/-- Python truthiness of an optional string: `None` and `''` are falsy. -/
def truthyStr : Option String → Bool
  | none => false
  | some s => s ≠ ""

/-- Python truthiness of an optional list: `None` and `[]` are falsy. -/
def truthyList : Option (List String) → Bool
  | none => false
  | some l => l ≠ []

/-- Python truthiness of an optional integer: `None` and `0` are falsy. -/
def truthyInt : Option Int → Bool
  | none => false
  | some n => n ≠ 0

/-- The members of Python's `http.HTTPStatus` enumeration, already rendered the
way `_get_status_description` renders them: `status.name.replace('_', ' ').title()`
(for example `BAD_GATEWAY ↦ "Bad Gateway"`, `OK ↦ "Ok"`).  A code that is not a
member yields `none`; `HTTPStatus(code)` raises `ValueError` there. -/
def httpStatusTitle : Nat → Option String
  | 100 => some "Continue"
  | 101 => some "Switching Protocols"
  | 102 => some "Processing"
  | 200 => some "Ok"
  | 201 => some "Created"
  | 202 => some "Accepted"
  | 203 => some "Non Authoritative Information"
  | 204 => some "No Content"
  | 205 => some "Reset Content"
  | 206 => some "Partial Content"
  | 207 => some "Multi Status"
  | 208 => some "Already Reported"
  | 226 => some "Im Used"
  | 300 => some "Multiple Choices"
  | 301 => some "Moved Permanently"
  | 302 => some "Found"
  | 303 => some "See Other"
  | 304 => some "Not Modified"
  | 305 => some "Use Proxy"
  | 307 => some "Temporary Redirect"
  | 308 => some "Permanent Redirect"
  | 400 => some "Bad Request"
  | 401 => some "Unauthorized"
  | 402 => some "Payment Required"
  | 403 => some "Forbidden"
  | 404 => some "Not Found"
  | 405 => some "Method Not Allowed"
  | 406 => some "Not Acceptable"
  | 407 => some "Proxy Authentication Required"
  | 408 => some "Request Timeout"
  | 409 => some "Conflict"
  | 410 => some "Gone"
  | 411 => some "Length Required"
  | 412 => some "Precondition Failed"
  | 413 => some "Request Entity Too Large"
  | 414 => some "Request Uri Too Long"
  | 415 => some "Unsupported Media Type"
  | 416 => some "Requested Range Not Satisfiable"
  | 417 => some "Expectation Failed"
  | 421 => some "Misdirected Request"
  | 422 => some "Unprocessable Entity"
  | 423 => some "Locked"
  | 424 => some "Failed Dependency"
  | 426 => some "Upgrade Required"
  | 428 => some "Precondition Required"
  | 429 => some "Too Many Requests"
  | 431 => some "Request Header Fields Too Large"
  | 451 => some "Unavailable For Legal Reasons"
  | 500 => some "Internal Server Error"
  | 501 => some "Not Implemented"
  | 502 => some "Bad Gateway"
  | 503 => some "Service Unavailable"
  | 504 => some "Gateway Timeout"
  | 505 => some "Http Version Not Supported"
  | 506 => some "Variant Also Negotiates"
  | 507 => some "Insufficient Storage"
  | 508 => some "Loop Detected"
  | 510 => some "Not Extended"
  | 511 => some "Network Authentication Required"
  | _ => none

/-- `HTTPStatus(n)` over an arbitrary Python integer: negative integers are
never members. -/
def httpStatusLookup (n : Int) : Option String :=
  if n < 0 then none else httpStatusTitle n.toNat

/-- `ClientError._get_status_description`: returns `None` for a falsy
`status_code`; otherwise `f'{status_code} {description}'` when the code is a
recognized `HTTPStatus` member, and raises `ValueError` (the `Except.error`
branch) when it is not. -/
def getStatusDescription (e : ClientError) : Except String (Option String) :=
  match e.status_code with
  | none => Except.ok none
  | some n =>
    if n = 0 then Except.ok none
    else
      match httpStatusLookup n with
      | some name => Except.ok (some (toString n ++ " " ++ name))
      | none => Except.error "ValueError"

/-- First half of `ClientError.__str__`:
`message = self.message or self._get_status_description() or 'Unexpected error'`.
Python `or` short-circuits, so a truthy `self.message` never evaluates the
status description (and thus never raises). -/
def pyStrMessage (e : ClientError) : Except String String :=
  if truthyStr e.message then Except.ok (e.message.getD "")
  else
    match getStatusDescription e with
    | Except.error m => Except.error m
    | Except.ok d =>
      if truthyStr d then Except.ok (d.getD "")
      else Except.ok "Unexpected error"

/-- `ClientError.__str__`: the base message, with
`f'{message}: {self.error_code} - {errors}'` appended when `self.error_code`
and `self.errors` are both truthy, where `errors = ','.join(self.errors)`. -/
def pyStr (e : ClientError) : Except String String :=
  match pyStrMessage e with
  | Except.error m => Except.error m
  | Except.ok message =>
    if truthyStr e.error_code && truthyList e.errors then
      Except.ok (message ++ ": " ++ e.error_code.getD "" ++ " - " ++
        String.intercalate "," (e.errors.getD []))
    else Except.ok message

/-- The status description as a pure partial function (no raising), used to
phrase the rendering-precedence claims. -/
def statusDescription (e : ClientError) : Option String :=
  match e.status_code with
  | none => none
  | some n =>
    if n = 0 then none
    else (httpStatusLookup n).map (fun name => toString n ++ " " ++ name)

/-- The rendering precedence the specification states: explicit message,
else status-derived description, else the literal fallback. -/
def renderedBase (e : ClientError) : String :=
  if truthyStr e.message then e.message.getD ""
  else
    match statusDescription e with
    | some d => d
    | none => "Unexpected error"

/-- The full rendered string the specification states: the base, with the
code/errors suffix appended exactly when both are present (truthy). -/
def renderedSpec (e : ClientError) : String :=
  if truthyStr e.error_code && truthyList e.errors then
    renderedBase e ++ ": " ++ e.error_code.getD "" ++ " - " ++
      String.intercalate "," (e.errors.getD [])
  else renderedBase e

/-- `status_code` values on which `_get_status_description` cannot raise:
absent, zero, or a recognized `HTTPStatus` member. -/
def statusSafe : Option Int → Bool
  | none => true
  | some n => n == 0 || (httpStatusLookup n).isSome

/-! ### RequestExecutor: modelled from the spec (§4.1, §4.2)

`cnct/client/fluent.py` is not among the provided sources; only its tests are.
Every definition below is `Modelled from the spec:`. -/

/-- Modelled from the spec: JSON values, for request/response bodies. -/
inductive Json where
  | null
  | bool (b : Bool)
  | num (n : Int)
  | str (s : String)
  | arr (elems : List Json)
  | obj (fields : List (String × Json))

/-- Modelled from the spec: an HTTP response body as the engine sees it —
valid JSON, decodable non-JSON text, an empty body, or bytes that decode in no
assumed encoding. -/
inductive RespBody where
  | jsonBody (j : Json)
  | textBody (t : String)
  | emptyBody
  | rawBody

/-- Modelled from the spec: an HTTP response: a status code and a body. -/
structure Response where
  status : Nat
  body : RespBody

/-- Modelled from the spec: one outgoing HTTP request. -/
structure Request where
  verb : String
  url : String
  headers : List (String × String)
  body : Option Json

/-- Modelled from the spec: the RequestExecutor configuration (§3),
constructed once and read-only afterwards.  `userAgentBase` is the
`userAgentPrefix` string constant. -/
structure Config where
  apiKey : String
  endpoint : String
  defaultHeaders : List (String × String)
  maxRetries : Nat
  userAgentBase : String
  version : String

/-- First entry with the given key in a header association list. -/
def getHeader : List (String × String) → String → Option String
  | [], _ => none
  | p :: rest, k => if p.1 = k then some p.2 else getHeader rest k

/-- Force-set a header: remove every entry with the key, then append the new
binding (dict-update semantics on an association list). -/
def setHeader (hs : List (String × String)) (k v : String) : List (String × String) :=
  hs.filter (fun p => p.1 != k) ++ [(k, v)]

/-- ASCII lowercase of a character, as `str.lower` acts on header keys. -/
def lowerChar (c : Char) : Char :=
  if 'A' ≤ c ∧ c ≤ 'Z' then Char.ofNat (c.toNat + 32) else c

/-- ASCII lowercase of a string (HTTP header keys are ASCII). -/
def lowerStr (s : String) : String :=
  String.mk (s.data.map lowerChar)

/-- Modelled from the spec: constructing the client validates the default
headers — a key case-insensitively equal to "authorization" fails construction
with a validation error before any request can be issued. -/
def mkClient (apiKey endpoint : String) (defaultHeaders : List (String × String))
    (maxRetries : Nat) : Except String Config :=
  if defaultHeaders.any (fun p => lowerStr p.1 == "authorization") then
    Except.error "Invalid setting value: `default_headers` cannot contain `Authorization`"
  else
    Except.ok
      { apiKey := apiKey
        endpoint := endpoint
        defaultHeaders := defaultHeaders
        maxRetries := maxRetries
        userAgentBase := "connect-fluent"
        version := "1.0" }

/-- Modelled from the spec: per-call options — header overrides and an
optional JSON body (the `json`/`payload` option). -/
structure Options where
  headers : List (String × String)
  jsonBody : Option Json

/-- Modelled from the spec: header construction — start from the default
headers, overlay the per-call headers, then force-set `Authorization` to the
API key verbatim and `User-Agent` to `<prefix>/<version>`. -/
def buildHeaders (cfg : Config) (callHeaders : List (String × String)) :
    List (String × String) :=
  let merged := callHeaders.foldl (fun acc p => setHeader acc p.1 p.2) cfg.defaultHeaders
  setHeader (setHeader merged "Authorization" cfg.apiKey)
    "User-Agent" (cfg.userAgentBase ++ ("/" ++ cfg.version))

/-- Modelled from the spec: the absolute URL is the relative path joined to
the configured endpoint. -/
def buildRequest (cfg : Config) (verb path : String) (opts : Options) : Request :=
  { verb := verb.toLower
    url := cfg.endpoint ++ ("/" ++ path)
    headers := buildHeaders cfg opts.headers
    body := opts.jsonBody }

/-- A status in the 2xx success range. -/
def isSuccess (s : Nat) : Bool :=
  200 ≤ s && s < 300

/-- Modelled from the spec: the retryable transient statuses — canonically
`502 Bad Gateway`, the only one the observed behaviour exercises. -/
def isRetryable (s : Nat) : Bool :=
  s == 502

/-- First field with the given name in a JSON object's field list. -/
def getField : List (String × Json) → String → Option Json
  | [], _ => none
  | p :: rest, k => if p.1 = k then some p.2 else getField rest k

/-- A JSON array of strings, as a list of strings. -/
def asStringList : Json → Option (List String)
  | Json.arr elems =>
    elems.foldr
      (fun j acc =>
        match j, acc with
        | Json.str s, some l => some (s :: l)
        | _, _ => none)
      (some [])
  | _ => none

/-- Modelled from the spec: a parsed error body "contains a structured object
with `error_code` and `errors` fields" — a JSON object with a string
`error_code` and a string-list `errors`. -/
def extractErrorShape : Json → Option (String × List String)
  | Json.obj fields =>
    match getField fields "error_code", getField fields "errors" with
    | some (Json.str c), some e => (asStringList e).map (fun l => (c, l))
    | _, _ => none
  | _ => none

/-- Modelled from the spec: error construction from a non-2xx response —
structured `error_code`/`errors` when the JSON body has that shape, a bare
status when JSON parses but the shape does not match, the decoded text as the
message when the body is non-JSON but decodable, and a bare status when the
body decodes in no encoding. -/
def errorFromResponse (r : Response) : ClientError :=
  match r.body with
  | RespBody.jsonBody j =>
    match extractErrorShape j with
    | some ce =>
      { message := none, status_code := some (r.status : Int),
        error_code := some ce.1, errors := some ce.2 }
    | none =>
      { message := none, status_code := some (r.status : Int),
        error_code := none, errors := none }
  | RespBody.textBody t =>
    { message := some t, status_code := some (r.status : Int),
      error_code := none, errors := none }
  | RespBody.emptyBody =>
    { message := some "", status_code := some (r.status : Int),
      error_code := none, errors := none }
  | RespBody.rawBody =>
    { message := none, status_code := some (r.status : Int),
      error_code := none, errors := none }

/-- Modelled from the spec: the value a successful response yields — null on
`204 No Content` regardless of body, null on an empty body, else the
JSON-decoded body. -/
def successResult (r : Response) : Option Json :=
  if r.status == 204 then none
  else
    match r.body with
    | RespBody.jsonBody j => some j
    | _ => none

/-- The observable outcome of one `execute` call: the returned value or the
raised `ClientError`, together with every request that was sent. -/
structure ExecResult where
  outcome : Except ClientError (Option Json)
  sent : List Request

/-- Modelled from the spec: the per-call state machine — send, and on a
retryable status resend the same request while retry budget remains; a
non-retryable failure or an exhausted budget raises the error built from the
last response.  The environment is the list of responses the transport would
return to successive attempts; running out of it is a transport-level failure
(no response at all), surfaced as a minimally-populated error. -/
def executeLoop (req : Request) : Nat → List Response → ExecResult
  | _, [] =>
    ⟨Except.error { message := none, status_code := none, error_code := none, errors := none },
      [req]⟩
  | retriesLeft, r :: rest =>
    if isSuccess r.status then ⟨Except.ok (successResult r), [req]⟩
    else if isRetryable r.status then
      match retriesLeft with
      | 0 => ⟨Except.error (errorFromResponse r), [req]⟩
      | n + 1 =>
        let tail := executeLoop req n rest
        ⟨tail.outcome, req :: tail.sent⟩
    else ⟨Except.error (errorFromResponse r), [req]⟩

/-- Modelled from the spec: `execute(verb, relativePath, options)` — build the
request once and run the retry loop with the configured budget. -/
def execute (cfg : Config) (verb path : String) (opts : Options)
    (responses : List Response) : ExecResult :=
  executeLoop (buildRequest cfg verb path opts) cfg.maxRetries responses

/-- Modelled from the spec: `get(url, **options) ≡ execute('get', url, options)`. -/
def getCall (cfg : Config) (url : String) (opts : Options)
    (responses : List Response) : ExecResult :=
  execute cfg "get" url opts responses

/-- Modelled from the spec:
`create(url, payload, **options) ≡ execute('post', url, {**options, json: payload})`. -/
def create (cfg : Config) (url : String) (payload : Json) (opts : Options)
    (responses : List Response) : ExecResult :=
  execute cfg "post" url { opts with jsonBody := some payload } responses

/-- Modelled from the spec:
`update(url, payload, **options) ≡ execute('put', url, {**options, json: payload})`. -/
def update (cfg : Config) (url : String) (payload : Json) (opts : Options)
    (responses : List Response) : ExecResult :=
  execute cfg "put" url { opts with jsonBody := some payload } responses

/-- Modelled from the spec:
`delete(url, **options) ≡ execute('delete', url, options)`, with no body added. -/
def deleteCall (cfg : Config) (url : String) (opts : Options)
    (responses : List Response) : ExecResult :=
  execute cfg "delete" url opts responses

/-- A concrete configuration mirroring the tests: API key "API_KEY", endpoint
"https://localhost", no default headers, `max_retries = 2`. -/
def sampleConfig : Config :=
  { apiKey := "API_KEY", endpoint := "https://localhost", defaultHeaders := [],
    maxRetries := 2, userAgentBase := "connect-fluent", version := "1.0" }

/-- Empty per-call options. -/
def noOptions : Options :=
  { headers := [], jsonBody := none }

/-! ### Helper lemmas -/

theorem string_append_ne_empty (a b : String) (h : a ≠ "") : a ++ b ≠ "" := by
  intro hab
  apply h
  have hlen : (a ++ b).length = 0 := by rw [hab]; rfl
  rw [String.length_append] at hlen
  have ha : a.length = 0 := by omega
  cases a with
  | mk data =>
    cases data with
    | nil => rfl
    | cons c cs => simp [String.length] at ha

theorem statusDescription_of_ok (e : ClientError) (d : Option String)
    (h : getStatusDescription e = Except.ok d) : statusDescription e = d := by
  unfold getStatusDescription at h
  unfold statusDescription
  cases hsc : e.status_code with
  | none =>
    rw [hsc] at h
    dsimp only at h
    simp only [Except.ok.injEq] at h
    simp [← h]
  | some n =>
    rw [hsc] at h
    dsimp only at h
    by_cases hn : n = 0
    · rw [if_pos hn] at h
      simp only [Except.ok.injEq] at h
      simp [hn, ← h]
    · rw [if_neg hn] at h
      cases hl : httpStatusLookup n with
      | none => rw [hl] at h; cases h
      | some name =>
        rw [hl] at h
        simp only [Except.ok.injEq] at h
        simp [hn, hl, ← h]

theorem statusDescription_ne_empty (e : ClientError) (s : String)
    (h : getStatusDescription e = Except.ok (some s)) : s ≠ "" := by
  unfold getStatusDescription at h
  cases hsc : e.status_code with
  | none => rw [hsc] at h; simp at h
  | some n =>
    rw [hsc] at h
    dsimp only at h
    by_cases hn : n = 0
    · rw [if_pos hn] at h; simp at h
    · rw [if_neg hn] at h
      cases hl : httpStatusLookup n with
      | none => rw [hl] at h; cases h
      | some name =>
        rw [hl] at h
        simp only [Except.ok.injEq, Option.some.injEq] at h
        intro hs
        rw [hs] at h
        have hlen := congrArg String.length h
        rw [String.length_append, String.length_append] at hlen
        have : String.length "" = 0 := rfl
        have hone : String.length " " = 1 := rfl
        omega

theorem getStatusDescription_of_safe (e : ClientError)
    (h : statusSafe e.status_code = true) :
    ∃ d, getStatusDescription e = Except.ok d := by
  unfold statusSafe at h
  unfold getStatusDescription
  cases hsc : e.status_code with
  | none => exact ⟨none, rfl⟩
  | some n =>
    rw [hsc] at h
    simp only [Bool.or_eq_true, beq_iff_eq, Option.isSome_iff_exists] at h
    by_cases hn : n = 0
    · exact ⟨none, by dsimp only; rw [if_pos hn]⟩
    · rcases h with h | ⟨name, hl⟩
      · exact absurd h hn
      · exact ⟨some (toString n ++ " " ++ name), by dsimp only; rw [if_neg hn, hl]⟩

theorem getHeader_filter_self (hs : List (String × String)) (k : String) :
    getHeader (hs.filter (fun p => p.1 != k)) k = none := by
  induction hs with
  | nil => rfl
  | cons p rest ih =>
    simp only [List.filter_cons]
    by_cases hp : p.1 = k
    · have hc : (p.1 != k) = false := by simp [hp]
      rw [hc]
      simp only [Bool.false_eq_true, if_false]
      exact ih
    · have hc : (p.1 != k) = true := by simp [hp]
      rw [hc]
      simp only [if_true]
      simp only [getHeader]
      rw [if_neg hp]
      exact ih

theorem getHeader_filter_ne (hs : List (String × String)) (k k' : String)
    (h : k ≠ k') : getHeader (hs.filter (fun p => p.1 != k')) k = getHeader hs k := by
  induction hs with
  | nil => rfl
  | cons p rest ih =>
    simp only [List.filter_cons]
    by_cases hp : p.1 = k'
    · have hpk : ¬ p.1 = k := by rw [hp]; exact fun hh => h hh.symm
      have hc : (p.1 != k') = false := by simp [hp]
      rw [hc]
      simp only [Bool.false_eq_true, if_false]
      rw [ih]
      simp only [getHeader]
      rw [if_neg hpk]
    · have hc : (p.1 != k') = true := by simp [hp]
      rw [hc]
      simp only [if_true]
      simp only [getHeader]
      rw [ih]

theorem getHeader_append_of_none (l1 l2 : List (String × String)) (k : String)
    (h : getHeader l1 k = none) : getHeader (l1 ++ l2) k = getHeader l2 k := by
  induction l1 with
  | nil => rfl
  | cons p rest ih =>
    simp only [getHeader] at h
    simp only [List.cons_append, getHeader]
    by_cases hp : p.1 = k
    · rw [if_pos hp] at h
      cases h
    · rw [if_neg hp] at h
      rw [if_neg hp]
      exact ih h

theorem getHeader_append_of_some (l1 l2 : List (String × String)) (k v : String)
    (h : getHeader l1 k = some v) : getHeader (l1 ++ l2) k = some v := by
  induction l1 with
  | nil => cases h
  | cons p rest ih =>
    simp only [getHeader] at h
    simp only [List.cons_append, getHeader]
    by_cases hp : p.1 = k
    · rw [if_pos hp] at h
      rw [if_pos hp]
      exact h
    · rw [if_neg hp] at h
      rw [if_neg hp]
      exact ih h

theorem getHeader_setHeader_same (hs : List (String × String)) (k v : String) :
    getHeader (setHeader hs k v) k = some v := by
  unfold setHeader
  rw [getHeader_append_of_none _ _ _ (getHeader_filter_self hs k)]
  simp [getHeader]

theorem getHeader_setHeader_ne (hs : List (String × String)) (k k' v : String)
    (h : k ≠ k') : getHeader (setHeader hs k' v) k = getHeader hs k := by
  unfold setHeader
  cases hq : getHeader hs k with
  | none =>
    have h1 : getHeader (hs.filter (fun p => p.1 != k')) k = none := by
      rw [getHeader_filter_ne _ _ _ h]
      exact hq
    rw [getHeader_append_of_none _ _ _ h1]
    simp only [getHeader]
    exact if_neg (fun hh => h hh.symm)
  | some w =>
    apply getHeader_append_of_some
    rw [getHeader_filter_ne _ _ _ h]
    exact hq

theorem buildHeaders_authorization (cfg : Config) (callHeaders : List (String × String)) :
    getHeader (buildHeaders cfg callHeaders) "Authorization" = some cfg.apiKey := by
  unfold buildHeaders
  rw [getHeader_setHeader_ne _ _ _ _ (by decide)]
  exact getHeader_setHeader_same _ _ _

theorem buildHeaders_userAgent (cfg : Config) (callHeaders : List (String × String)) :
    getHeader (buildHeaders cfg callHeaders) "User-Agent" =
      some (cfg.userAgentBase ++ ("/" ++ cfg.version)) :=
  getHeader_setHeader_same _ _ _

theorem errorFromResponse_status (r : Response) :
    (errorFromResponse r).status_code = some (r.status : Int) := by
  unfold errorFromResponse
  cases r.body with
  | jsonBody j =>
    dsimp only
    cases extractErrorShape j <;> rfl
  | textBody t => rfl
  | emptyBody => rfl
  | rawBody => rfl

theorem executeLoop_sent_eq (req : Request) :
    ∀ (n : Nat) (rs : List Response), ∀ q ∈ (executeLoop req n rs).sent, q = req := by
  intro n rs
  induction rs generalizing n with
  | nil =>
    intro q hq
    simp only [executeLoop, List.mem_singleton] at hq
    exact hq
  | cons r rest ih =>
    intro q hq
    unfold executeLoop at hq
    by_cases hs : isSuccess r.status = true
    · rw [if_pos hs] at hq
      simp only [List.mem_singleton] at hq
      exact hq
    · rw [if_neg hs] at hq
      by_cases hr : isRetryable r.status = true
      · rw [if_pos hr] at hq
        cases n with
        | zero =>
          simp only [List.mem_singleton] at hq
          exact hq
        | succ m =>
          simp only [List.mem_cons] at hq
          rcases hq with hq | hq
          · exact hq
          · exact ih m q hq
      · rw [if_neg hr] at hq
        simp only [List.mem_singleton] at hq
        exact hq

theorem executeLoop_retry_success (req : Request) (failures : List Response)
    (final : Response) (rest : List Response)
    (hall : ∀ r ∈ failures, r.status = 502)
    (hs : isSuccess final.status = true) :
    executeLoop req failures.length (failures ++ final :: rest) =
      ⟨Except.ok (successResult final), List.replicate (failures.length + 1) req⟩ := by
  induction failures with
  | nil =>
    simp only [List.length_nil, List.nil_append]
    unfold executeLoop
    rw [if_pos hs]
    rfl
  | cons f fs ih =>
    have hf : f.status = 502 := hall f (List.mem_cons_self _ _)
    have hnots : ¬ isSuccess f.status = true := by rw [hf]; decide
    have hret : isRetryable f.status = true := by rw [hf]; decide
    simp only [List.length_cons, List.cons_append]
    unfold executeLoop
    rw [if_neg hnots, if_pos hret]
    dsimp only
    rw [ih (fun r hr => hall r (List.mem_cons_of_mem _ hr))]
    simp [List.replicate_succ]

theorem executeLoop_exhaust (req : Request) :
    ∀ (failures : List Response), failures ≠ [] →
      ∀ (rest : List Response), (∀ r ∈ failures, r.status = 502) →
      ∃ f, f ∈ failures ∧
        executeLoop req (failures.length - 1) (failures ++ rest) =
          ⟨Except.error (errorFromResponse f), List.replicate failures.length req⟩ := by
  intro failures
  induction failures with
  | nil => intro h; exact absurd rfl h
  | cons f fs ih =>
    intro _ rest hall
    have hf : f.status = 502 := hall f (List.mem_cons_self _ _)
    have hnots : ¬ isSuccess f.status = true := by rw [hf]; decide
    have hret : isRetryable f.status = true := by rw [hf]; decide
    cases fs with
    | nil =>
      refine ⟨f, List.mem_cons_self _ _, ?_⟩
      simp only [List.length_singleton, List.singleton_append]
      unfold executeLoop
      rw [if_neg hnots, if_pos hret]
      rfl
    | cons f2 fs2 =>
      obtain ⟨g, hg, heq⟩ :=
        ih (by simp) rest (fun r hr => hall r (List.mem_cons_of_mem _ hr))
      refine ⟨g, List.mem_cons_of_mem _ hg, ?_⟩
      simp only [List.length_cons, Nat.add_sub_cancel, List.cons_append]
      unfold executeLoop
      rw [if_neg hnots, if_pos hret]
      dsimp only
      simp only [List.length_cons, Nat.add_sub_cancel, List.cons_append] at heq
      rw [heq]
      simp [List.replicate_succ]

/-! ### Claims about the error model (`cnct/client/exceptions.py`) -/

/-- Claim C7: the rendered string equals the explicit message when one is set,
else the description derived from `statusCode` (e.g. "502 Bad Gateway"), else
the literal "Unexpected error"; the ": code - errors" suffix is appended
exactly when `errorCode` and `errors` are both present (truthy). -/
theorem claim7_render_precedence (e : ClientError) (r : String)
    (h : pyStr e = Except.ok r) : r = renderedSpec e := by
  unfold pyStr at h
  unfold renderedSpec
  cases hm : pyStrMessage e with
  | error m => rw [hm] at h; cases h
  | ok message =>
    rw [hm] at h
    dsimp only at h
    have hbase : message = renderedBase e := by
      unfold pyStrMessage at hm
      unfold renderedBase
      by_cases hmsg : truthyStr e.message = true
      · rw [if_pos hmsg] at hm ⊢
        simp only [Except.ok.injEq] at hm
        exact hm.symm
      · rw [if_neg hmsg] at hm
        rw [if_neg hmsg]
        cases hd : getStatusDescription e with
        | error m2 => rw [hd] at hm; cases hm
        | ok d =>
          rw [hd] at hm
          dsimp only at hm
          rw [statusDescription_of_ok e d hd]
          by_cases htd : truthyStr d = true
          · rw [if_pos htd] at hm
            simp only [Except.ok.injEq] at hm
            cases d with
            | none => simp [truthyStr] at htd
            | some s => simpa using hm.symm
          · rw [if_neg htd] at hm
            simp only [Except.ok.injEq] at hm
            cases d with
            | none => exact hm.symm
            | some s =>
              exact absurd (by simp [truthyStr, statusDescription_ne_empty e s hd]) htd
    by_cases hc : (truthyStr e.error_code && truthyList e.errors) = true
    · rw [if_pos hc] at h
      rw [if_pos hc]
      simp only [Except.ok.injEq] at h
      rw [← h, hbase]
    · rw [if_neg hc] at h
      rw [if_neg hc]
      simp only [Except.ok.injEq] at h
      rw [← h, hbase]

/-- Claim C7 witness: a concrete error with no message, status 400,
`error_code = "code"` and `errors = ["first", "second"]` renders as
"400 Bad Request: code - first,second", which is what the spec-side
precedence yields. -/
theorem claim7_witness :
    "400 Bad Request: code - first,second" =
      renderedSpec
        { message := none, status_code := some 400,
          error_code := some "code", errors := some ["first", "second"] } :=
  claim7_render_precedence _ _ rfl

/-- Claim C8 counterexample: `str(ClientError(status_code=599))` does not
return a string — `HTTPStatus(599)` raises `ValueError`, since 599 is not a
recognized status, so rendering raises instead of falling back. -/
theorem claim8_counterexample :
    pyStr { message := none, status_code := some 599,
            error_code := none, errors := none } =
      Except.error "ValueError" := rfl

/-- Claim C8 (amended): rendering terminates without raising and returns a
non-empty string whenever the message is truthy or the `statusCode` is absent,
zero, or a recognized standard HTTP status; a falsy message together with a
non-zero unrecognized `statusCode` instead raises `ValueError` from the status
lookup. -/
theorem claim8_render_total_on_safe (e : ClientError)
    (h : truthyStr e.message = true ∨ statusSafe e.status_code = true) :
    ∃ r, pyStr e = Except.ok r ∧ r ≠ "" := by
  have hmsg : ∃ m, pyStrMessage e = Except.ok m ∧ m ≠ "" := by
    unfold pyStrMessage
    by_cases hm : truthyStr e.message = true
    · refine ⟨e.message.getD "", by rw [if_pos hm], ?_⟩
      cases hmm : e.message with
      | none => rw [hmm] at hm; simp [truthyStr] at hm
      | some s =>
        rw [hmm] at hm
        simp only [truthyStr, decide_eq_true_eq] at hm
        simpa using hm
    · have hsafe : statusSafe e.status_code = true := by
        rcases h with h | h
        · exact absurd h hm
        · exact h
      obtain ⟨d, hd⟩ := getStatusDescription_of_safe e hsafe
      rw [if_neg hm, hd]
      by_cases htd : truthyStr d = true
      · refine ⟨d.getD "", by dsimp only; rw [if_pos htd], ?_⟩
        cases d with
        | none => simp [truthyStr] at htd
        | some s =>
          simp only [truthyStr, decide_eq_true_eq] at htd
          simpa using htd
      · exact ⟨"Unexpected error", by dsimp only; rw [if_neg htd], by decide⟩
  obtain ⟨m, hm, hne⟩ := hmsg
  unfold pyStr
  rw [hm]
  dsimp only
  by_cases hc : (truthyStr e.error_code && truthyList e.errors) = true
  · refine ⟨_, by rw [if_pos hc], ?_⟩
    exact string_append_ne_empty _ _ (string_append_ne_empty _ _
      (string_append_ne_empty _ _ (string_append_ne_empty _ _ hne)))
  · exact ⟨m, by rw [if_neg hc], hne⟩

/-- Claim C8 witness: a bare 502 error renders to the non-empty
"502 Bad Gateway" without raising. -/
theorem claim8_witness :
    ∃ r,
      pyStr { message := none, status_code := some 502,
              error_code := none, errors := none } = Except.ok r ∧ r ≠ "" :=
  claim8_render_total_on_safe _ (Or.inr (by decide))

/-- Claim C10: an `errors` field that is present but empty, or an `errorCode`
equal to the empty string, suppresses the code/errors suffix entirely — the
rendering is exactly the base message. -/
theorem claim10_empty_suppresses_suffix (e : ClientError)
    (h : e.error_code = some "" ∨ e.errors = some []) :
    pyStr e = pyStrMessage e := by
  have hc : (truthyStr e.error_code && truthyList e.errors) = false := by
    rcases h with h | h
    · rw [h]
      simp [truthyStr]
    · rw [h]
      simp [truthyList]
  unfold pyStr
  cases hm : pyStrMessage e with
  | error m => rfl
  | ok message => rw [hc]; rfl

/-- Claim C10 witness: `error_code = "CODE"` with `errors = []` renders to
just the message "boom", with no suffix. -/
theorem claim10_witness :
    pyStr { message := some "boom", status_code := some 400,
            error_code := some "CODE", errors := some [] } =
      pyStrMessage
        { message := some "boom", status_code := some 400,
          error_code := some "CODE", errors := some [] } :=
  claim10_empty_suppresses_suffix _ (Or.inr rfl)

/-! ### Claims about the request executor (modelled from the spec) -/

/-- Claim C1: for any configuration, when the first `maxRetries` responses have
status 502 and the final response is a 200 with a JSON body, `execute` returns
that body decoded, and exactly `maxRetries + 1` requests are sent, all equal to
the one built request (hence identical in verb, URL, headers and body). -/
theorem claim1_retry_then_success (cfg : Config) (verb path : String) (opts : Options)
    (failures : List Response) (final : Response) (j : Json)
    (hlen : failures.length = cfg.maxRetries)
    (hall : ∀ r ∈ failures, r.status = 502)
    (hst : final.status = 200) (hbody : final.body = RespBody.jsonBody j) :
    (execute cfg verb path opts (failures ++ [final])).outcome = Except.ok (some j) ∧
    (execute cfg verb path opts (failures ++ [final])).sent.length = cfg.maxRetries + 1 ∧
    ∀ q ∈ (execute cfg verb path opts (failures ++ [final])).sent,
      q = buildRequest cfg verb path opts := by
  have hs : isSuccess final.status = true := by rw [hst]; decide
  have hkey :=
    executeLoop_retry_success (buildRequest cfg verb path opts) failures final [] hall hs
  have hexec : execute cfg verb path opts (failures ++ [final]) =
      ⟨Except.ok (successResult final),
        List.replicate (failures.length + 1) (buildRequest cfg verb path opts)⟩ := by
    unfold execute
    rw [← hlen]
    exact hkey
  have hres : successResult final = some j := by
    unfold successResult
    rw [hst, hbody]
    rfl
  refine ⟨?_, ?_, ?_⟩
  · rw [hexec, hres]
  · rw [hexec]
    simp [hlen]
  · intro q hq
    rw [hexec] at hq
    exact List.eq_of_mem_replicate hq

/-- Claim C1 witness: two 502 responses then a 200 with body `[]` under
`max_retries = 2` — the decoded body comes back and three identical requests
go out. -/
theorem claim1_witness :
    (execute sampleConfig "get" "resources" noOptions
        ([⟨502, RespBody.rawBody⟩, ⟨502, RespBody.rawBody⟩] ++
          [⟨200, RespBody.jsonBody (Json.arr [])⟩])).outcome =
      Except.ok (some (Json.arr [])) ∧
    (execute sampleConfig "get" "resources" noOptions
        ([⟨502, RespBody.rawBody⟩, ⟨502, RespBody.rawBody⟩] ++
          [⟨200, RespBody.jsonBody (Json.arr [])⟩])).sent.length =
      sampleConfig.maxRetries + 1 ∧
    ∀ q ∈ (execute sampleConfig "get" "resources" noOptions
        ([⟨502, RespBody.rawBody⟩, ⟨502, RespBody.rawBody⟩] ++
          [⟨200, RespBody.jsonBody (Json.arr [])⟩])).sent,
      q = buildRequest sampleConfig "get" "resources" noOptions :=
  claim1_retry_then_success sampleConfig "get" "resources" noOptions
    [⟨502, RespBody.rawBody⟩, ⟨502, RespBody.rawBody⟩]
    ⟨200, RespBody.jsonBody (Json.arr [])⟩ (Json.arr [])
    rfl (by decide) rfl rfl

/-- Claim C2: for any configuration, when the first `maxRetries + 1` responses
all have status 502, `execute` raises a `ClientError` with `statusCode = 502`,
and exactly `maxRetries + 1` requests are sent — none beyond that, whatever
further responses would have followed. -/
theorem claim2_retries_exhausted (cfg : Config) (verb path : String) (opts : Options)
    (failures rest : List Response)
    (hlen : failures.length = cfg.maxRetries + 1)
    (hall : ∀ r ∈ failures, r.status = 502) :
    (∃ e, (execute cfg verb path opts (failures ++ rest)).outcome = Except.error e ∧
      e.status_code = some 502) ∧
    (execute cfg verb path opts (failures ++ rest)).sent.length = cfg.maxRetries + 1 := by
  have hne : failures ≠ [] := by
    intro h
    rw [h] at hlen
    simp only [List.length_nil] at hlen
    omega
  obtain ⟨f, hf, heq⟩ :=
    executeLoop_exhaust (buildRequest cfg verb path opts) failures hne rest hall
  have hmr : cfg.maxRetries = failures.length - 1 := by omega
  have hexec : execute cfg verb path opts (failures ++ rest) =
      ⟨Except.error (errorFromResponse f),
        List.replicate failures.length (buildRequest cfg verb path opts)⟩ := by
    unfold execute
    rw [hmr]
    exact heq
  constructor
  · refine ⟨errorFromResponse f, by rw [hexec], ?_⟩
    rw [errorFromResponse_status f, hall f hf]
    rfl
  · rw [hexec]
    simp [hlen]

/-- Claim C2 witness: three straight 502 responses under `max_retries = 2`
raise a 502 error after exactly three requests, even though a 200 response
would have followed. -/
theorem claim2_witness :
    (∃ e,
      (execute sampleConfig "get" "resources" noOptions
          ([⟨502, RespBody.rawBody⟩, ⟨502, RespBody.rawBody⟩, ⟨502, RespBody.rawBody⟩] ++
            [⟨200, RespBody.jsonBody Json.null⟩])).outcome = Except.error e ∧
      e.status_code = some 502) ∧
    (execute sampleConfig "get" "resources" noOptions
        ([⟨502, RespBody.rawBody⟩, ⟨502, RespBody.rawBody⟩, ⟨502, RespBody.rawBody⟩] ++
          [⟨200, RespBody.jsonBody Json.null⟩])).sent.length =
      sampleConfig.maxRetries + 1 :=
  claim2_retries_exhausted sampleConfig "get" "resources" noOptions
    [⟨502, RespBody.rawBody⟩, ⟨502, RespBody.rawBody⟩, ⟨502, RespBody.rawBody⟩]
    [⟨200, RespBody.jsonBody Json.null⟩] rfl (by decide)

/-- Claim C3: a non-2xx, non-retryable first response makes `execute` raise a
`ClientError` immediately after a single request; the error carries the
response status, and when the JSON body has the structured
`error_code`/`errors` shape it carries that code and those errors.  No other
exception type exists: the outcome is always `Except ClientError _`. -/
theorem claim3_nonretryable_immediate (cfg : Config) (verb path : String) (opts : Options)
    (r : Response) (rest : List Response)
    (hfail : isSuccess r.status = false) (hnr : r.status ≠ 502) :
    (execute cfg verb path opts (r :: rest)).sent.length = 1 ∧
    ∃ e, (execute cfg verb path opts (r :: rest)).outcome = Except.error e ∧
      e.status_code = some (r.status : Int) ∧
      ∀ j code errs, r.body = RespBody.jsonBody j →
        extractErrorShape j = some (code, errs) →
        e.error_code = some code ∧ e.errors = some errs := by
  have hret : isRetryable r.status = false := by
    unfold isRetryable
    simp [hnr]
  have hexec : execute cfg verb path opts (r :: rest) =
      ⟨Except.error (errorFromResponse r), [buildRequest cfg verb path opts]⟩ := by
    unfold execute executeLoop
    rw [if_neg (by rw [hfail]; simp), if_neg (by rw [hret]; simp)]
  refine ⟨by rw [hexec]; rfl, errorFromResponse r, by rw [hexec],
    errorFromResponse_status r, ?_⟩
  intro j code errs hb hshape
  unfold errorFromResponse
  rw [hb]
  dsimp only
  rw [hshape]
  exact ⟨rfl, rfl⟩

/-- Claim C3 witness: a 400 with body
`{"error_code": "code", "errors": ["first", "second"]}` raises after one
request, with status 400, that code and those errors. -/
theorem claim3_witness :
    (execute sampleConfig "post" "resources" noOptions
        [⟨400, RespBody.jsonBody (Json.obj
          [("error_code", Json.str "code"),
           ("errors", Json.arr [Json.str "first", Json.str "second"])])⟩]).sent.length = 1 ∧
    ∃ e,
      (execute sampleConfig "post" "resources" noOptions
          [⟨400, RespBody.jsonBody (Json.obj
            [("error_code", Json.str "code"),
             ("errors", Json.arr [Json.str "first", Json.str "second"])])⟩]).outcome =
        Except.error e ∧
      e.status_code = some ((400 : Nat) : Int) ∧
      ∀ j code errs,
        (⟨400, RespBody.jsonBody (Json.obj
          [("error_code", Json.str "code"),
           ("errors", Json.arr [Json.str "first", Json.str "second"])])⟩ : Response).body =
            RespBody.jsonBody j →
        extractErrorShape j = some (code, errs) →
        e.error_code = some code ∧ e.errors = some errs :=
  claim3_nonretryable_immediate sampleConfig "post" "resources" noOptions
    ⟨400, RespBody.jsonBody (Json.obj
      [("error_code", Json.str "code"),
       ("errors", Json.arr [Json.str "first", Json.str "second"])])⟩ []
    rfl (by decide)

/-- Claim C4: whatever the verb, path, per-call headers (including attempts to
set `Authorization` or `User-Agent`) and default headers, every outgoing
request carries `Authorization` equal to the configured API key verbatim and a
`User-Agent` that starts with the configured prefix. -/
theorem claim4_forced_headers (cfg : Config) (verb path : String) (opts : Options)
    (responses : List Response) :
    ∀ q ∈ (execute cfg verb path opts responses).sent,
      getHeader q.headers "Authorization" = some cfg.apiKey ∧
      ∃ tail, getHeader q.headers "User-Agent" = some (cfg.userAgentBase ++ tail) := by
  intro q hq
  have hqe : q = buildRequest cfg verb path opts :=
    executeLoop_sent_eq (buildRequest cfg verb path opts) cfg.maxRetries responses q hq
  subst hqe
  exact ⟨buildHeaders_authorization cfg opts.headers,
    "/" ++ cfg.version, buildHeaders_userAgent cfg opts.headers⟩

/-- Claim C4 witness: with per-call headers trying to override both reserved
headers, the one request sent still carries `Authorization: API_KEY` and a
`User-Agent` starting with "connect-fluent". -/
theorem claim4_witness :
    getHeader (buildRequest sampleConfig "post" "resources"
        { headers := [("Authorization", "spoof"), ("User-Agent", "evil")],
          jsonBody := none }).headers "Authorization" = some sampleConfig.apiKey ∧
    ∃ tail,
      getHeader (buildRequest sampleConfig "post" "resources"
          { headers := [("Authorization", "spoof"), ("User-Agent", "evil")],
            jsonBody := none }).headers "User-Agent" =
        some (sampleConfig.userAgentBase ++ tail) :=
  claim4_forced_headers sampleConfig "post" "resources"
    { headers := [("Authorization", "spoof"), ("User-Agent", "evil")], jsonBody := none }
    [⟨201, RespBody.jsonBody (Json.arr [])⟩]
    (buildRequest sampleConfig "post" "resources"
      { headers := [("Authorization", "spoof"), ("User-Agent", "evil")], jsonBody := none })
    (List.mem_singleton.mpr rfl)

/-- Claim C5: a 204 response makes `execute` return null regardless of body; a
200 or 201 response returns the JSON-decoded body unchanged; a success-status
response with an empty body returns null. -/
theorem claim5_success_values (cfg : Config) (verb path : String) (opts : Options)
    (r : Response) (rest : List Response) :
    (r.status = 204 → (execute cfg verb path opts (r :: rest)).outcome = Except.ok none) ∧
    (∀ j, (r.status = 200 ∨ r.status = 201) → r.body = RespBody.jsonBody j →
      (execute cfg verb path opts (r :: rest)).outcome = Except.ok (some j)) ∧
    (isSuccess r.status = true → r.body = RespBody.emptyBody →
      (execute cfg verb path opts (r :: rest)).outcome = Except.ok none) := by
  refine ⟨?_, ?_, ?_⟩
  · intro h204
    have hs : isSuccess r.status = true := by rw [h204]; decide
    unfold execute executeLoop
    rw [if_pos hs]
    dsimp only
    unfold successResult
    rw [h204]
    rfl
  · intro j hst hb
    have hs : isSuccess r.status = true := by rcases hst with h | h <;> rw [h] <;> decide
    unfold execute executeLoop
    rw [if_pos hs]
    dsimp only
    unfold successResult
    rw [hb]
    rcases hst with h | h <;> rw [h] <;> rfl
  · intro hs hb
    unfold execute executeLoop
    rw [if_pos hs]
    dsimp only
    unfold successResult
    rw [hb]
    split <;> rfl

/-- Claim C5 witness: a 204 with a non-empty text body yields null; a 200 with
JSON body `"ok"` yields that value. -/
theorem claim5_witness :
    (execute sampleConfig "delete" "resources" noOptions
        [⟨204, RespBody.textBody "error text"⟩]).outcome = Except.ok none ∧
    (execute sampleConfig "get" "resources" noOptions
        [⟨200, RespBody.jsonBody (Json.str "ok")⟩]).outcome =
      Except.ok (some (Json.str "ok")) :=
  ⟨(claim5_success_values sampleConfig "delete" "resources" noOptions
      ⟨204, RespBody.textBody "error text"⟩ []).1 rfl,
   (claim5_success_values sampleConfig "get" "resources" noOptions
      ⟨200, RespBody.jsonBody (Json.str "ok")⟩ []).2.1 (Json.str "ok") (Or.inl rfl) rfl⟩

/-- Claim C6: constructing a client with a default-header key that
case-insensitively equals "authorization" fails with a validation error before
any request machinery exists; any other mapping constructs successfully and is
stored unchanged. -/
theorem claim6_construction_validation (apiKey endpoint : String)
    (dh : List (String × String)) (mr : Nat) :
    ((∃ p ∈ dh, lowerStr p.1 = "authorization") →
      mkClient apiKey endpoint dh mr =
        Except.error "Invalid setting value: `default_headers` cannot contain `Authorization`") ∧
    ((∀ p ∈ dh, lowerStr p.1 ≠ "authorization") →
      mkClient apiKey endpoint dh mr =
        Except.ok
          { apiKey := apiKey, endpoint := endpoint, defaultHeaders := dh,
            maxRetries := mr, userAgentBase := "connect-fluent", version := "1.0" }) := by
  constructor
  · intro h
    unfold mkClient
    rw [if_pos]
    simp only [List.any_eq_true]
    obtain ⟨p, hp, he⟩ := h
    exact ⟨p, hp, by simp [he]⟩
  · intro h
    unfold mkClient
    rw [if_neg]
    simp only [List.any_eq_true, not_exists]
    intro p
    simp only [not_and, beq_iff_eq]
    exact h p

/-- Claim C6 witness: `default_headers={"Authorization": "value"}` fails the
validation before any request exists, while
`default_headers={"X-Custom-Header": "value"}` constructs a client storing the
mapping unchanged. -/
theorem claim6_witness :
    mkClient "Api Key" "https://localhost" [("Authorization", "value")] 3 =
      Except.error "Invalid setting value: `default_headers` cannot contain `Authorization`" ∧
    mkClient "Api Key" "https://localhost" [("X-Custom-Header", "value")] 3 =
      Except.ok
        { apiKey := "Api Key", endpoint := "https://localhost",
          defaultHeaders := [("X-Custom-Header", "value")], maxRetries := 3,
          userAgentBase := "connect-fluent", version := "1.0" } :=
  ⟨(claim6_construction_validation "Api Key" "https://localhost"
      [("Authorization", "value")] 3).1
      ⟨("Authorization", "value"), List.mem_singleton.mpr rfl, by decide⟩,
   (claim6_construction_validation "Api Key" "https://localhost"
      [("X-Custom-Header", "value")] 3).2 (by decide)⟩

/-- Claim C9: the convenience wrappers are pure argument-shaping over
`execute`: `create` posts the payload as the JSON body, `update` puts it,
`delete` passes its options through with no body added — with identical
retry and error behaviour since they are the same computation. -/
theorem claim9_wrappers (cfg : Config) (url : String) (payload : Json)
    (opts : Options) (responses : List Response) :
    create cfg url payload opts responses =
        execute cfg "post" url { opts with jsonBody := some payload } responses ∧
    update cfg url payload opts responses =
        execute cfg "put" url { opts with jsonBody := some payload } responses ∧
    deleteCall cfg url opts responses = execute cfg "delete" url opts responses :=
  ⟨rfl, rfl, rfl⟩

end Cnct
